import Mathlib

/-!
Shallow embedding of the simulation core of the `textdoom` repository
(TypeScript): the grid (`map.ts`), the DDA raycaster (`raycaster.ts`),
the enemy AI and combat routines (`sprites.ts`), the projectile system
(the `ProjectileManager` shipped alongside `map.ts`), the player's
collision-resolved movement (`player.ts`), and the weapon splash call
site (`weapon.ts`).

Conventions of the embedding:
* JavaScript numbers are modelled as rationals (`ℚ`); `Math.floor` is
  `Int.floor`, `Math.sign` is `signQ` below.
* `Math.sqrt` does not stay inside `ℚ`, so routines whose observable
  behaviour depends on a Euclidean distance value take that distance
  (or a distance function standing for `this.distance`) as an explicit
  argument; theorems pin it down with the hypothesis
  `d ≥ 0 ∧ d ^ 2 = (dx) ^ 2 + (dy) ^ 2`, which characterises the square
  root uniquely.  Where the source only *compares* a square root against
  a constant (`Math.sqrt(v) < c` with `c ≥ 0`), the embedding uses the
  equivalent exact comparison `v < c ^ 2`.
* Mutation is modelled by explicit state passing; methods of
  `SpriteManager` / `ProjectileManager` become functions returning the
  updated entities.
-/

namespace TextDoom

/-- Two-dimensional vector with rational coordinates (`Vec2` of `types.ts`). -/
structure Vec2 where
  x : ℚ
  y : ℚ
  deriving Repr, DecidableEq

/-- Grid width (`MAP_WIDTH` of `map.ts`). -/
def MAP_WIDTH : ℤ := 24

/-- Grid height (`MAP_HEIGHT` of `map.ts`). -/
def MAP_HEIGHT : ℤ := 24

/-- The hand-crafted level of `map.ts`: `0` is empty, positive values are wall types. -/
def MAP : List (List ℕ) :=
  [[1,1,1,1,1,1,1,1,1,1,1,1,1,1,1,1,1,1,1,1,1,1,1,1],
   [1,0,0,0,0,0,0,0,0,0,0,0,0,0,0,0,0,0,0,0,0,0,0,1],
   [1,0,0,0,0,0,0,0,0,0,0,0,0,0,0,0,0,0,0,0,0,0,0,1],
   [1,0,0,0,0,0,0,0,0,0,0,0,0,0,0,0,0,0,0,0,0,0,0,1],
   [1,0,0,0,2,2,2,2,2,0,0,0,0,0,3,3,3,3,3,0,0,0,0,1],
   [1,0,0,0,2,0,0,0,2,0,0,0,0,0,3,0,0,0,3,0,0,0,0,1],
   [1,0,0,0,2,0,0,0,2,0,0,0,0,0,3,0,0,0,3,0,0,0,0,1],
   [1,0,0,0,2,0,0,0,2,0,0,0,0,0,3,0,0,0,3,0,0,0,0,1],
   [1,0,0,0,2,2,0,2,2,0,0,0,0,0,3,3,0,3,3,0,0,0,0,1],
   [1,0,0,0,0,0,0,0,0,0,0,0,0,0,0,0,0,0,0,0,0,0,0,1],
   [1,0,0,0,0,0,0,0,0,0,0,0,0,0,0,0,0,0,0,0,0,0,0,1],
   [1,0,0,0,0,0,0,0,0,0,4,4,4,4,0,0,0,0,0,0,0,0,0,1],
   [1,0,0,0,0,0,0,0,0,0,4,0,0,4,0,0,0,0,0,0,0,0,0,1],
   [1,0,0,0,0,0,0,0,0,0,4,0,0,4,0,0,0,0,0,0,0,0,0,1],
   [1,0,0,0,0,0,0,0,0,0,4,4,4,4,0,0,0,0,0,0,0,0,0,1],
   [1,0,0,0,0,0,0,0,0,0,0,0,0,0,0,0,0,0,0,0,0,0,0,1],
   [1,0,0,0,0,0,0,0,0,0,0,0,0,0,0,0,0,0,0,0,0,0,0,1],
   [1,0,0,0,5,5,5,5,5,5,0,0,0,0,6,6,6,6,6,6,0,0,0,1],
   [1,0,0,0,5,0,0,0,0,5,0,0,0,0,6,0,0,0,0,6,0,0,0,1],
   [1,0,0,0,5,0,0,0,0,5,0,0,0,0,6,0,0,0,0,6,0,0,0,1],
   [1,0,0,0,5,0,0,0,0,0,0,0,0,0,0,0,0,0,0,6,0,0,0,1],
   [1,0,0,0,5,5,5,5,5,5,0,0,0,0,6,6,6,6,6,6,0,0,0,1],
   [1,0,0,0,0,0,0,0,0,0,0,0,0,0,0,0,0,0,0,0,0,0,0,1],
   [1,1,1,1,1,1,1,1,1,1,1,1,1,1,1,1,1,1,1,1,1,1,1,1]]

/-- Cell lookup `MAP[mapY][mapX]` for in-range integer indices, `0` otherwise
(the callers below always test the bounds before consulting the cell). -/
def mapCell (mx my : ℤ) : ℕ :=
  if 0 ≤ mx ∧ mx < MAP_WIDTH ∧ 0 ≤ my ∧ my < MAP_HEIGHT then
    (MAP.getD my.toNat []).getD mx.toNat 0
  else 0

/-- Whether the integer cell coordinates fall outside the grid. -/
def outOfBounds (mx my : ℤ) : Prop :=
  mx < 0 ∨ MAP_WIDTH ≤ mx ∨ my < 0 ∨ MAP_HEIGHT ≤ my

instance (mx my : ℤ) : Decidable (outOfBounds mx my) := by
  unfold outOfBounds; infer_instance

/-- Solidity of an integer cell: out-of-bounds cells are solid, in-bounds
cells are solid exactly when their wall type is nonzero. -/
def cellSolid (mx my : ℤ) : Bool :=
  if outOfBounds mx my then true
  else decide (mapCell mx my ≠ 0)

/-- Translation of `isWall` of `map.ts`: floor both coordinates, treat
out-of-bounds as solid, otherwise test the cell for a nonzero wall type. -/
def isWall (x y : ℚ) : Bool :=
  cellSolid ⌊x⌋ ⌊y⌋

/-- Translation of `getWallType` of `map.ts`: the cell value in bounds
(`0` for empty), `1` for out-of-bounds coordinates. -/
def getWallType (x y : ℚ) : ℕ :=
  let mapX := ⌊x⌋
  let mapY := ⌊y⌋
  if outOfBounds mapX mapY then 1
  else mapCell mapX mapY

/-- C6: out-of-bounds coordinates read as solid with boundary wall type 1;
in-bounds coordinates read the stored cell, `isWall` holding exactly for
nonzero cells.  Both functions are plain functions of the coordinates. -/
theorem grid_boundary_contract (x y : ℚ) :
    (outOfBounds ⌊x⌋ ⌊y⌋ → isWall x y = true ∧ getWallType x y = 1) ∧
    (¬ outOfBounds ⌊x⌋ ⌊y⌋ →
      (isWall x y = true ↔ mapCell ⌊x⌋ ⌊y⌋ ≠ 0) ∧
      getWallType x y = mapCell ⌊x⌋ ⌊y⌋) := by
  constructor
  · intro h
    simp [isWall, cellSolid, getWallType, h]
  · intro h
    simp [isWall, cellSolid, getWallType, h]

/-- Witness for C6: the point `(-1, 5)` is out of bounds and solid with wall
type 1; the point `(5/2, 5/2)` is in bounds, not a wall, with wall type equal
to its cell value `0`. -/
theorem grid_boundary_contract_witness :
    isWall (-1) 5 = true ∧ getWallType (-1) 5 = 1 ∧
    getWallType (5/2) (5/2) = mapCell 2 2 ∧ mapCell 2 2 = 0 := by
  have hfm : ⌊(-1 : ℚ)⌋ = -1 := by norm_num
  have hf5 : ⌊(5 : ℚ)⌋ = 5 := by norm_num
  have hfh : ⌊(5/2 : ℚ)⌋ = 2 := by norm_num
  have h1 := (grid_boundary_contract (-1) 5).1 (by rw [hfm, hf5]; decide)
  have h2 := ((grid_boundary_contract (5/2) (5/2)).2 (by rw [hfh]; decide)).2
  rw [hfh] at h2
  exact ⟨h1.1, h1.2, h2, by decide⟩

/-- Sprite kinds (`SpriteType` of `types.ts`). -/
inductive SpriteType
  | imp | demon | cacodemon | baron | cyberdemon
  | health | armor
  | ammoBullets | ammoShells | ammoRockets | ammoCells | ammoFuel
  | corpse | gib
  deriving Repr, DecidableEq

/-- Sprite AI states (`SpriteState` of `types.ts`). -/
inductive SpriteState
  | idle | chase | attack | pain | dead
  deriving Repr, DecidableEq

/-- Per-kind enemy statistics (`EnemyStats` of `sprites.ts`). -/
structure EnemyStats where
  health : ℚ
  speed : ℚ
  damage : ℚ
  attackRange : ℚ
  attackCooldown : ℚ
  projectileDamage : Option ℚ := none
  projectileRange : Option ℚ := none
  floats : Bool := false
  canSummon : Bool := false
  deriving Repr, DecidableEq

/-- The `imp` entry of `ENEMY_STATS`. -/
def impStats : EnemyStats :=
  { health := 15, speed := 6/5, damage := 5, attackRange := 6/5, attackCooldown := 3/2 }

/-- The `demon` entry of `ENEMY_STATS`. -/
def demonStats : EnemyStats :=
  { health := 40, speed := 1, damage := 10, attackRange := 3/2, attackCooldown := 2 }

/-- The `cacodemon` entry of `ENEMY_STATS`. -/
def cacodemonStats : EnemyStats :=
  { health := 60, speed := 3/5, damage := 8, attackRange := 8, attackCooldown := 3,
    projectileDamage := some 8, projectileRange := some 8, floats := true }

/-- The `baron` entry of `ENEMY_STATS`. -/
def baronStats : EnemyStats :=
  { health := 100, speed := 4/5, damage := 15, attackRange := 9/5, attackCooldown := 5/2,
    projectileDamage := some 12, projectileRange := some 10 }

/-- The `cyberdemon` entry of `ENEMY_STATS`. -/
def cyberdemonStats : EnemyStats :=
  { health := 200, speed := 1/2, damage := 25, attackRange := 12, attackCooldown := 4,
    projectileDamage := some 25, projectileRange := some 12, canSummon := false }

/-- Lookup `ENEMY_STATS[type]`; `none` for kinds without an entry. -/
def enemyStats : SpriteType → Option EnemyStats
  | .imp => some impStats
  | .demon => some demonStats
  | .cacodemon => some cacodemonStats
  | .baron => some baronStats
  | .cyberdemon => some cyberdemonStats
  | _ => none

/-- Translation of `isEnemy` of `sprites.ts`. -/
def isEnemyType : SpriteType → Bool
  | .imp | .demon | .cacodemon | .baron | .cyberdemon => true
  | _ => false

/-- Translation of `isPickup` of `sprites.ts`. -/
def isPickupType : SpriteType → Bool
  | .health | .armor
  | .ammoBullets | .ammoShells | .ammoRockets | .ammoCells | .ammoFuel => true
  | _ => false

/-- Sprite entity (`Sprite` of `types.ts`). -/
structure Sprite where
  id : ℕ
  pos : Vec2
  type : SpriteType
  health : ℚ
  state : SpriteState
  animFrame : ℚ
  lastSeen : ℚ
  lastSeenPos : Vec2
  attackCooldown : ℚ
  dir : Vec2
  velocity : Vec2
  deriving Repr, DecidableEq

/-- Result of `SpriteManager.damageSprite`: the updated sprite, the returned
`killed` flag, the overkill flag handed to the gore system on a kill, and the
increment applied to the manager's kill counter. -/
structure DamageResult where
  sprite : Sprite
  killed : Bool
  overkill : Bool
  killCountDelta : ℕ
  deriving Repr, DecidableEq

/-- Translation of `SpriteManager.damageSprite` of `sprites.ts`: subtract the
damage; on a non-positive result clamp health to 0, enter `dead`, count the
kill and compute the overkill flag (`damage > previousHealth * 2`); otherwise
enter `pain` with the fixed `0.3` stun stored in `attackCooldown`. -/
def damageSprite (s : Sprite) (damage : ℚ) : DamageResult :=
  let previousHealth := s.health
  let h := s.health - damage
  if h ≤ 0 then
    { sprite := { s with health := 0, state := SpriteState.dead },
      killed := true,
      overkill := decide (previousHealth * 2 < damage),
      killCountDelta := 1 }
  else
    { sprite := { s with health := h, state := SpriteState.pain, attackCooldown := 3/10 },
      killed := false,
      overkill := false,
      killCountDelta := 0 }

/-- C1: `damageSprite` leaves health at `max 0 (previous − damage)`; afterwards
the state is `dead` exactly when health is 0; a kill bumps the kill counter by
one and raises the overkill flag exactly when the damage exceeds twice the
pre-hit health; a non-lethal hit transitions the sprite to `pain`. -/
theorem damage_sprite_contract (s : Sprite) (damage : ℚ) :
    (damageSprite s damage).sprite.health = max 0 (s.health - damage) ∧
    ((damageSprite s damage).sprite.state = SpriteState.dead ↔
      (damageSprite s damage).sprite.health = 0) ∧
    ((damageSprite s damage).killed = true →
      (damageSprite s damage).killCountDelta = 1 ∧
      ((damageSprite s damage).overkill = true ↔ s.health * 2 < damage)) ∧
    ((damageSprite s damage).killed = false →
      (damageSprite s damage).sprite.state = SpriteState.pain ∧
      (damageSprite s damage).killCountDelta = 0) := by
  simp only [damageSprite]
  by_cases h : s.health - damage ≤ 0
  · rw [if_pos h]
    refine ⟨?_, by simp, fun _ => ⟨rfl, by simp [mul_comm]⟩, by simp⟩
    show (0 : ℚ) = max 0 (s.health - damage)
    exact (max_eq_left h).symm
  · rw [if_neg h]
    push_neg at h
    refine ⟨?_, ?_, by simp, fun _ => ⟨rfl, rfl⟩⟩
    · show s.health - damage = max 0 (s.health - damage)
      exact (max_eq_right h.le).symm
    · show SpriteState.pain = SpriteState.dead ↔ s.health - damage = 0
      simp [h.ne']

/-- Witness for C1 at a concrete input: an imp at full health hit for 40
damage is killed with the overkill flag raised. -/
theorem damage_sprite_contract_witness :
    (damageSprite
      { id := 1, pos := ⟨5, 5⟩, type := SpriteType.imp, health := 15,
        state := SpriteState.chase, animFrame := 0, lastSeen := 0,
        lastSeenPos := ⟨0, 0⟩, attackCooldown := 0, dir := ⟨1, 0⟩,
        velocity := ⟨0, 0⟩ } 40).sprite.health = max 0 (15 - 40) := by
  exact (damage_sprite_contract _ 40).1

/-- Per-sprite body of the loop in `SpriteManager.applySplashDamage`: given the
computed distance from the splash center, the radius and the base damage,
return the damage actually applied (`none` when the hit is skipped).  The
source condition is `dist < radius && dist > 0.1`; the damage is
`Math.floor(damage * (1 - dist / radius))`, applied only when positive. -/
def splashHit (dist radius damage : ℚ) : Option ℤ :=
  if dist < radius ∧ 1/10 < dist then
    let falloff := 1 - dist / radius
    let actualDamage := ⌊damage * falloff⌋
    if 0 < actualDamage then some actualDamage else none
  else none

/-- Translation of `SpriteManager.applySplashDamage` of `sprites.ts`.
`distFn` stands for `this.distance` (Euclidean distance, which leaves `ℚ`);
theorems about concrete geometry pin it down through the characterisation
`distFn a b ≥ 0 ∧ (distFn a b) ^ 2 = (a.x - b.x) ^ 2 + (a.y - b.y) ^ 2`.
Dead sprites and non-enemies are skipped; every other sprite is damaged
through `damageSprite` when `splashHit` applies. -/
def applySplashDamage (distFn : Vec2 → Vec2 → ℚ) (center : Vec2)
    (radius damage : ℚ) (sprites : List Sprite) : List Sprite :=
  sprites.map fun s =>
    if s.state = SpriteState.dead ∨ isEnemyType s.type = false then s
    else
      match splashHit (distFn center s.pos) radius damage with
      | some actual => (damageSprite s (actual : ℚ)).sprite
      | none => s

/-- Counterexample for C2: at distance 2 with radius 3 and base damage 100 the
code deals `⌊100 * (1 - 2/3)⌋ = 33` damage, not the 34 the claim states; and a
live hostile at distance `1/20` — strictly between the exact center and the
radius — is skipped entirely, although the claim predicts
`⌊100 * (1 - (1/20)/3)⌋ = 98` damage for every `0 < d < R`. -/
theorem splash_falloff_counterexample :
    splashHit 2 3 100 = some 33 ∧ (33 : ℤ) ≠ 34 ∧
    splashHit (1/20) 3 100 = none ∧ (0 : ℚ) < 1/20 ∧
    ⌊(100 : ℚ) * (1 - (1/20) / 3)⌋ = 98 := by
  refine ⟨?_, by decide, ?_, by norm_num, by norm_num⟩
  · rw [splashHit, if_pos (by norm_num)]
    norm_num
  · rw [splashHit, if_neg (by norm_num)]

/-- C2 as amended: for a live hostile at computed distance `d` with
`0.1 < d < R` the splash deals `⌊D * (1 - d/R)⌋` damage, skipped when that
value is not positive; a hostile at distance `≥ R` takes no damage; in the
spec's scenario (D = 100, R = 3) the hostiles at distances 0.5, 2.0 and 3.5
take 83, **33** and 0 damage respectively, and the health of the hostile at
distance 3.5 is unchanged by `applySplashDamage`. -/
theorem splash_falloff_amended :
    (∀ d R D : ℚ, 1/10 < d → d < R →
      splashHit d R D =
        if 0 < ⌊D * (1 - d / R)⌋ then some ⌊D * (1 - d / R)⌋ else none) ∧
    (∀ d R D : ℚ, R ≤ d → splashHit d R D = none) ∧
    splashHit (1/2) 3 100 = some 83 ∧
    splashHit 2 3 100 = some 33 ∧
    splashHit (7/2) 3 100 = none ∧
    (∀ (distFn : Vec2 → Vec2 → ℚ) (center : Vec2) (s : Sprite),
      distFn center s.pos = 7/2 →
      applySplashDamage distFn center 3 100 [s] = [s]) := by
  refine ⟨?_, ?_, ?_, ?_, ?_, ?_⟩
  · intro d R D h1 h2
    rw [splashHit, if_pos ⟨h2, h1⟩]
  · intro d R D h
    rw [splashHit, if_neg]
    rintro ⟨hlt, -⟩
    exact absurd h (not_le.2 hlt)
  · rw [splashHit, if_pos (by norm_num)]
    norm_num
  · rw [splashHit, if_pos (by norm_num)]
    norm_num
  · rw [splashHit, if_neg (by norm_num)]
  · intro distFn center s hd
    have hnone : splashHit (distFn center s.pos) 3 100 = none := by
      rw [hd, splashHit, if_neg (by norm_num)]
    simp only [applySplashDamage, List.map]
    by_cases hs : s.state = SpriteState.dead ∨ isEnemyType s.type = false
    · rw [if_pos hs]
    · rw [if_neg hs, hnone]

/-- Witness for C2 (amended): instantiating the distance oracle with the
axis-aligned distance and a live imp standing at `(7/2, 0)` with the splash
centered at the origin; the imp is unharmed, and the oracle agrees with the
Euclidean distance at the pair of points used. -/
theorem splash_falloff_amended_witness :
    applySplashDamage (fun a b => |b.x - a.x|) ⟨0, 0⟩ 3 100
      [{ id := 1, pos := ⟨7/2, 0⟩, type := SpriteType.imp, health := 15,
         state := SpriteState.idle, animFrame := 0, lastSeen := 0,
         lastSeenPos := ⟨0, 0⟩, attackCooldown := 0, dir := ⟨1, 0⟩,
         velocity := ⟨0, 0⟩ }] =
      [{ id := 1, pos := ⟨7/2, 0⟩, type := SpriteType.imp, health := 15,
         state := SpriteState.idle, animFrame := 0, lastSeen := 0,
         lastSeenPos := ⟨0, 0⟩, attackCooldown := 0, dir := ⟨1, 0⟩,
         velocity := ⟨0, 0⟩ }] ∧
    |(7/2 : ℚ) - 0| ^ 2 = ((0 : ℚ) - 7/2) ^ 2 + ((0 : ℚ) - 0) ^ 2 ∧
    (0 : ℚ) ≤ |(7/2 : ℚ) - 0| := by
  refine ⟨splash_falloff_amended.2.2.2.2.2 _ _ _ (by norm_num), by norm_num, by positivity⟩

/-- Player state (`Player` of `types.ts`).  The ammo record is bookkeeping of
the excluded weapon layer and is not consumed by any routine embedded here, so
it is omitted. -/
structure Player where
  pos : Vec2
  dir : Vec2
  plane : Vec2
  health : ℚ
  armor : ℚ
  isDead : Bool
  damageFlash : ℚ
  screenShake : ℚ
  damageDirection : Option Vec2 := none
  deriving Repr, DecidableEq

/-- JavaScript truthiness of `stats.projectileDamage` (`undefined` and `0` are
falsy). -/
def projectileCapable (stats : EnemyStats) : Bool :=
  match stats.projectileDamage with
  | some v => decide (v ≠ 0)
  | none => false

/-- Damage-direction unit vector computed at the top of the cooldown-expired
branch of `updateAttack`: `(dx/dist, dy/dist)` from enemy to player, or the
zero vector when the distance is zero.  `sqrtFn` stands for `Math.sqrt`. -/
def damageDirFrom (sqrtFn : ℚ → ℚ) (s : Sprite) (p : Player) : Vec2 :=
  let dx := s.pos.x - p.pos.x
  let dy := s.pos.y - p.pos.y
  let dist := sqrtFn (dx * dx + dy * dy)
  if 0 < dist then ⟨dx / dist, dy / dist⟩ else ⟨0, 0⟩

/-- The player-mutation common to both attack branches of `updateAttack` (and
to `ProjectileManager.handlePlayerHit`): clamp health at 0, set the damage
flash and direction, and mark the player dead when health reaches 0. -/
def hitPlayer (p : Player) (damage : ℚ) (damageDir : Vec2) : Player :=
  let h := max 0 (p.health - damage)
  { p with health := h, damageFlash := 1,
           damageDirection := some damageDir, isDead := decide (h ≤ 0) }

/-- Translation of `SpriteManager.updateAttack` of `sprites.ts`.  `sqrtFn`
stands for `Math.sqrt` (used only to build the damage-direction unit vector),
`los` for the value of `this.hasLineOfSight(sprite.pos, player.pos)`, and
`distToPlayer` is the argument computed by the caller `updateEnemy`.  Beyond
1.5x attack range the sprite falls back to `chase`; otherwise, once the
cooldown has expired, a ranged kind beyond 2 map units fires a hit-scan that
lands only with line of sight, any other case is a melee hit, and in both
cases the cooldown is reset to the kind's value. -/
def updateAttack (sqrtFn : ℚ → ℚ) (los : Bool) (s : Sprite) (p : Player)
    (distToPlayer : ℚ) (stats : EnemyStats) : Sprite × Player :=
  if stats.attackRange * (3/2) < distToPlayer then
    ({ s with state := SpriteState.chase }, p)
  else if s.attackCooldown ≤ 0 then
    ({ s with attackCooldown := stats.attackCooldown },
      if projectileCapable stats = true ∧ 2 < distToPlayer then
        if p.isDead = false ∧ los = true then
          hitPlayer p (stats.projectileDamage.getD 0) (damageDirFrom sqrtFn s p)
        else p
      else
        if p.isDead = false then
          hitPlayer p stats.damage (damageDirFrom sqrtFn s p)
        else p)
  else (s, p)

/-- C3: for a hostile within 1.5x attack range whose cooldown has expired,
`updateAttack` resets the cooldown to the kind's value in every case — in
particular even when a ranged attack's line-of-sight check fails; the attack
is ranged (projectile damage, landing only with line of sight on a live
player) exactly when the kind is projectile-capable and the distance exceeds
2 map units, melee (the kind's melee damage) otherwise; an imp hitting a live
player with at least 5 health reduces the player's health by exactly 5. -/
theorem attack_state_contract (sqrtFn : ℚ → ℚ) (los : Bool) (s : Sprite)
    (p : Player) (d : ℚ) (stats : EnemyStats)
    (hrange : d ≤ stats.attackRange * (3/2))
    (hcd : s.attackCooldown ≤ 0) :
    (updateAttack sqrtFn los s p d stats).1.attackCooldown = stats.attackCooldown ∧
    (projectileCapable stats = true → 2 < d →
      (p.isDead = false → los = true →
        (updateAttack sqrtFn los s p d stats).2.health
          = max 0 (p.health - stats.projectileDamage.getD 0)) ∧
      (los = false → (updateAttack sqrtFn los s p d stats).2 = p)) ∧
    ((d ≤ 2 ∨ projectileCapable stats = false) → p.isDead = false →
      (updateAttack sqrtFn los s p d stats).2.health
        = max 0 (p.health - stats.damage)) ∧
    (stats = impStats → p.isDead = false → 5 ≤ p.health →
      (updateAttack sqrtFn los s p d stats).2.health = p.health - 5) := by
  unfold updateAttack
  rw [if_neg (not_lt.2 hrange), if_pos hcd]
  by_cases hr : projectileCapable stats = true ∧ 2 < d
  · rw [if_pos hr]
    refine ⟨rfl, fun _ _ => ⟨fun hd hl => ?_, fun hl => ?_⟩, fun hm _ => ?_, fun him _ _ => ?_⟩
    · show (if p.isDead = false ∧ los = true then _ else p).health = _
      rw [if_pos ⟨hd, hl⟩]
      rfl
    · show (if p.isDead = false ∧ los = true then _ else p) = p
      rw [if_neg (by simp [hl])]
    · rcases hm with hm | hm
      · exact absurd hr.2 (not_lt.2 hm)
      · rw [hr.1] at hm; exact absurd hm (by simp)
    · rw [him] at hr
      exact absurd hr.1 (by rw [projectileCapable]; simp [impStats])
  · rw [if_neg hr]
    refine ⟨rfl, fun hc hd => absurd ⟨hc, hd⟩ hr, fun _ hd => ?_, fun him hd hh => ?_⟩
    · show (if p.isDead = false then _ else p).health = _
      rw [if_pos hd]
      rfl
    · show (if p.isDead = false then _ else p).health = _
      rw [if_pos hd, him]
      show max 0 (p.health - impStats.damage) = p.health - 5
      rw [show impStats.damage = 5 from rfl, max_eq_right (by linarith)]

/-- Witness for C3: a concrete imp with expired cooldown at distance 1 from a
live full-health player lands a melee hit for exactly 5 damage. -/
theorem attack_state_contract_witness :
    (updateAttack id true
      { id := 1, pos := ⟨3, 3⟩, type := SpriteType.imp, health := 15,
        state := SpriteState.attack, animFrame := 0, lastSeen := 0,
        lastSeenPos := ⟨0, 0⟩, attackCooldown := 0, dir := ⟨1, 0⟩,
        velocity := ⟨0, 0⟩ }
      { pos := ⟨3, 4⟩, dir := ⟨0, -1⟩, plane := ⟨33/50, 0⟩, health := 100,
        armor := 0, isDead := false, damageFlash := 0, screenShake := 0 }
      1 impStats).2.health = 100 - 5 := by
  exact (attack_state_contract id true _ _ 1 impStats (by norm_num [impStats])
    (by norm_num)).2.2.2 rfl rfl (by norm_num)

/-- Translation of `Math.sign`. -/
def signQ (q : ℚ) : ℚ :=
  if 0 < q then 1 else if q < 0 then -1 else 0

/-- The `continue` filter of the separation loop in `SpriteManager.moveSprite`:
self, dead sprites, corpses, gibs and pickups exert no push. -/
def separationSkip (selfId : ℕ) (other : Sprite) : Bool :=
  decide (other.id = selfId) || decide (other.state = SpriteState.dead) ||
  decide (other.type = SpriteType.corpse) || decide (other.type = SpriteType.gib) ||
  isPickupType other.type

/-- The mutual-separation pass at the end of `SpriteManager.moveSprite`: every
other live non-pickup sprite closer than 0.8 (but farther than 0.01) pushes
the moving sprite 0.1 units straight away from itself; the position is updated
in place between iterations, and no wall check is applied.  `distFn` stands
for `this.distance`. -/
def separationNudge (distFn : Vec2 → Vec2 → ℚ) (selfId : ℕ)
    (others : List Sprite) (start : Vec2) : Vec2 :=
  others.foldl
    (fun pos other =>
      if separationSkip selfId other then pos
      else
        let dist := distFn pos other.pos
        if dist < 4/5 ∧ 1/100 < dist then
          ⟨pos.x + (pos.x - other.pos.x) / dist * (1/10),
           pos.y + (pos.y - other.pos.y) / dist * (1/10)⟩
        else pos)
    start

/-- Axis move with margin probe: commit `x + dx` when the point a margin `m`
ahead in the direction of travel is not a wall, else keep `x`.  With `m = 0`
this is the unprobed check of the floating branch. -/
def slideX (x y dx m : ℚ) : ℚ :=
  if isWall (x + dx + signQ dx * m) y = false then x + dx else x

/-- Axis move with margin probe along Y, using the already-committed X. -/
def slideY (x y dy m : ℚ) : ℚ :=
  if isWall x (y + dy + signQ dy * m) = false then y + dy else y

/-- Translation of `SpriteManager.moveSprite` of `sprites.ts`: per-axis wall
checks (floating kinds probe the target point itself, i.e. margin 0; others
probe `COLLISION_MARGIN = 0.3` ahead in the direction of travel), the Y check
using the already-updated X coordinate, followed by the mutual-separation
pass. -/
def moveSprite (distFn : Vec2 → Vec2 → ℚ) (s : Sprite) (dx dy : ℚ)
    (stats : EnemyStats) (others : List Sprite) : Sprite :=
  let m : ℚ := if stats.floats then 0 else 3/10
  let x1 := slideX s.pos.x s.pos.y dx m
  let y1 := slideY x1 s.pos.y dy m
  { s with pos := separationNudge distFn s.id others ⟨x1, y1⟩ }

/-- Helper: `moveSprite` only moves the sprite; its state is untouched. -/
theorem moveSprite_state (distFn : Vec2 → Vec2 → ℚ) (s : Sprite) (dx dy : ℚ)
    (stats : EnemyStats) (others : List Sprite) :
    (moveSprite distFn s dx dy stats others).state = s.state := rfl

/-- Translation of `SpriteManager.updateIdle` of `sprites.ts`.  `canSee`
stands for the `canSeePlayer` argument, `wander` for the outcome of the
`Math.random() < 0.01` draw together with the random unit direction
`(cos angle, sin angle)` it would install, and `others` for `this.sprites`
as consumed by the separation pass of `moveSprite`. -/
def updateIdle (distFn : Vec2 → Vec2 → ℚ) (s : Sprite) (canSee : Bool)
    (distToPlayer dt : ℚ) (stats : EnemyStats) (wander : Option Vec2)
    (others : List Sprite) : Sprite :=
  if canSee = true ∧ distToPlayer < 12 then
    { s with state := SpriteState.chase }
  else
    let s1 :=
      match wander with
      | some d => { s with dir := d }
      | none => s
    let speed := stats.speed * (1/5) * dt
    moveSprite distFn s1 (s1.dir.x * speed) (s1.dir.y * speed) stats others

/-- C4: an idle hostile that sees the player within the awareness radius of
12 map units transitions to `chase` in a single update step, and an idle
hostile never transitions directly to `attack` — for any line-of-sight and
distance inputs the post-state is `chase` or still `idle`. -/
theorem idle_awareness_contract (distFn : Vec2 → Vec2 → ℚ) (s : Sprite)
    (canSee : Bool) (distToPlayer dt : ℚ) (stats : EnemyStats)
    (wander : Option Vec2) (others : List Sprite)
    (hidle : s.state = SpriteState.idle) :
    (canSee = true → distToPlayer < 12 →
      (updateIdle distFn s canSee distToPlayer dt stats wander others).state
        = SpriteState.chase) ∧
    (updateIdle distFn s canSee distToPlayer dt stats wander others).state
      ≠ SpriteState.attack := by
  have hstate :
      (updateIdle distFn s canSee distToPlayer dt stats wander others).state
        = SpriteState.chase ∨
      (updateIdle distFn s canSee distToPlayer dt stats wander others).state
        = s.state := by
    unfold updateIdle
    by_cases h : canSee = true ∧ distToPlayer < 12
    · rw [if_pos h]; exact Or.inl rfl
    · rw [if_neg h]; right; cases wander <;> rfl
  constructor
  · intro h1 h2
    unfold updateIdle
    rw [if_pos ⟨h1, h2⟩]
  · rcases hstate with h | h <;> rw [h]
    · decide
    · rw [hidle]; decide

/-- Witness for C4: a concrete idle imp that sees the player at distance 5
switches to `chase` in one step (and in particular is not in `attack`). -/
theorem idle_awareness_contract_witness :
    ((updateIdle (fun a b => |b.x - a.x|)
      { id := 1, pos := ⟨6 + 1/2, 6 + 1/2⟩, type := SpriteType.imp, health := 15,
        state := SpriteState.idle, animFrame := 0, lastSeen := 0,
        lastSeenPos := ⟨0, 0⟩, attackCooldown := 0, dir := ⟨1, 0⟩,
        velocity := ⟨0, 0⟩ }
      true 5 (1/60) impStats none []).state = SpriteState.chase) ∧
    ((updateIdle (fun a b => |b.x - a.x|)
      { id := 1, pos := ⟨6 + 1/2, 6 + 1/2⟩, type := SpriteType.imp, health := 15,
        state := SpriteState.idle, animFrame := 0, lastSeen := 0,
        lastSeenPos := ⟨0, 0⟩, attackCooldown := 0, dir := ⟨1, 0⟩,
        velocity := ⟨0, 0⟩ }
      true 5 (1/60) impStats none []).state ≠ SpriteState.attack) := by
  have h := idle_awareness_contract (fun a b => |b.x - a.x|)
    { id := 1, pos := ⟨6 + 1/2, 6 + 1/2⟩, type := SpriteType.imp, health := 15,
      state := SpriteState.idle, animFrame := 0, lastSeen := 0,
      lastSeenPos := ⟨0, 0⟩, attackCooldown := 0, dir := ⟨1, 0⟩,
      velocity := ⟨0, 0⟩ }
    true 5 (1/60) impStats none [] rfl
  exact ⟨h.1 rfl (by norm_num), h.2⟩

/-- Helper: when an axis move of size at most `m` crosses into a new cell, the
probe point a margin `m` further ahead still lies in that same cell (this
needs `2 * m ≤ 1`, which holds for both collision margins of the source). -/
theorem probe_floor_eq (x d m : ℚ) (hm : 0 < m) (hm2 : m + m ≤ 1) (hd : |d| ≤ m)
    (hne : ⌊x + d⌋ ≠ ⌊x⌋) : ⌊x + d + signQ d * m⌋ = ⌊x + d⌋ := by
  rcases lt_trichotomy d 0 with hneg | hzero | hpos
  · have hsign : signQ d = -1 := by rw [signQ, if_neg (by linarith), if_pos hneg]
    rw [hsign]
    have habs : -d ≤ m := by rw [abs_of_neg hneg] at hd; exact hd
    have h1 : ((⌊x + d⌋ : ℤ) : ℚ) ≤ x + d := Int.floor_le _
    have h2 : x + d < (⌊x + d⌋ : ℚ) + 1 := Int.lt_floor_add_one _
    have hle : ⌊x + d⌋ ≤ ⌊x⌋ := Int.floor_le_floor (by linarith)
    have hlt : ⌊x + d⌋ < ⌊x⌋ := lt_of_le_of_ne hle hne
    have hx : (⌊x + d⌋ : ℚ) + 1 ≤ x := by
      have hz : (⌊x + d⌋ + 1 : ℤ) ≤ ⌊x⌋ := hlt
      have hq : ((⌊x + d⌋ + 1 : ℤ) : ℚ) ≤ (⌊x⌋ : ℚ) := by exact_mod_cast hz
      have := Int.floor_le x
      push_cast at hq
      linarith
    rw [Int.floor_eq_iff]
    exact ⟨by linarith, by linarith⟩
  · exact absurd (by rw [hzero, add_zero]) hne
  · have hsign : signQ d = 1 := by rw [signQ, if_pos hpos]
    rw [hsign]
    have habs : d ≤ m := by rw [abs_of_pos hpos] at hd; exact hd
    have h1 : ((⌊x + d⌋ : ℤ) : ℚ) ≤ x + d := Int.floor_le _
    have hle : ⌊x⌋ ≤ ⌊x + d⌋ := Int.floor_le_floor (by linarith)
    have hlt : ⌊x⌋ < ⌊x + d⌋ := lt_of_le_of_ne hle (Ne.symm hne)
    have hx : x < (⌊x + d⌋ : ℚ) := by
      have hz : (⌊x⌋ + 1 : ℤ) ≤ ⌊x + d⌋ := hlt
      have hq : ((⌊x⌋ + 1 : ℤ) : ℚ) ≤ (⌊x + d⌋ : ℚ) := by exact_mod_cast hz
      have := Int.lt_floor_add_one x
      push_cast at hq
      linarith
    rw [Int.floor_eq_iff]
    exact ⟨by linarith, by linarith⟩

/-- Helper: a margin-probed X axis move from a wall-free point stays wall-free
when the displacement is at most the margin. -/
theorem slideX_free (x y dx m : ℚ) (hm : 0 < m) (hm2 : m + m ≤ 1)
    (hd : |dx| ≤ m) (hfree : isWall x y = false) :
    isWall (slideX x y dx m) y = false := by
  unfold slideX
  split_ifs with h
  · by_cases hne : ⌊x + dx⌋ = ⌊x⌋
    · unfold isWall at *
      rw [hne]
      exact hfree
    · unfold isWall at *
      rw [← probe_floor_eq x dx m hm hm2 hd hne]
      exact h
  · exact hfree

/-- Helper: a margin-probed Y axis move from a wall-free point stays wall-free
when the displacement is at most the margin. -/
theorem slideY_free (x y dy m : ℚ) (hm : 0 < m) (hm2 : m + m ≤ 1)
    (hd : |dy| ≤ m) (hfree : isWall x y = false) :
    isWall x (slideY x y dy m) = false := by
  unfold slideY
  split_ifs with h
  · by_cases hne : ⌊y + dy⌋ = ⌊y⌋
    · unfold isWall at *
      rw [hne]
      exact hfree
    · unfold isWall at *
      rw [← probe_floor_eq y dy m hm hm2 hd hne]
      exact h
  · exact hfree

/-- Translation of `moveWithCollision` of `player.ts`: per-axis moves with a
`COLLISION_MARGIN = 0.2` probe in the direction of travel, the Y check using
the already-committed X coordinate, allowing sliding along walls. -/
def moveWithCollision (p : Player) (dx dy : ℚ) : Player :=
  let x1 := slideX p.pos.x p.pos.y dx (1/5)
  let y1 := slideY x1 p.pos.y dy (1/5)
  { p with pos := ⟨x1, y1⟩ }

/-- Distance oracle used by the concrete counterexamples and witnesses: the
axis-aligned distance, which agrees with the Euclidean distance whenever the
two points share a Y coordinate (the accompanying conjuncts certify this at
every pair where it is consulted). -/
def axisDist (a b : Vec2) : ℚ := |a.x - b.x|

/-- Concrete imp standing legally at `(21/20, 5)`, next to the west wall. -/
def nudgeVictim : Sprite :=
  { id := 1, pos := ⟨21/20, 5⟩, type := SpriteType.imp, health := 15,
    state := SpriteState.idle, animFrame := 0, lastSeen := 0,
    lastSeenPos := ⟨0, 0⟩, attackCooldown := 0, dir := ⟨1, 0⟩,
    velocity := ⟨0, 0⟩ }

/-- Concrete live imp standing at `(9/5, 5)`, within separation range of
`nudgeVictim`. -/
def nudgePusher : Sprite :=
  { id := 2, pos := ⟨9/5, 5⟩, type := SpriteType.imp, health := 15,
    state := SpriteState.idle, animFrame := 0, lastSeen := 0,
    lastSeenPos := ⟨0, 0⟩, attackCooldown := 0, dir := ⟨1, 0⟩,
    velocity := ⟨0, 0⟩ }

/-- Counterexample for C7: the mutual-separation nudge of `moveSprite` applies
no wall check, so a zero-displacement `moveSprite` call on a legally placed
imp standing 3/4 units from another live imp pushes it to `(19/20, 5)` —
inside the solid boundary cell `(0, 5)`.  The final conjuncts certify that
the distance oracle agrees with the Euclidean distance at the single pair of
points where the separation pass consults it. -/
theorem entity_wall_free_counterexample :
    isWall nudgeVictim.pos.x nudgeVictim.pos.y = false ∧
    (moveSprite axisDist nudgeVictim 0 0 impStats [nudgePusher]).pos
      = ⟨19/20, 5⟩ ∧
    isWall (19/20) 5 = true ∧
    0 ≤ axisDist nudgeVictim.pos nudgePusher.pos ∧
    axisDist nudgeVictim.pos nudgePusher.pos ^ 2
      = (nudgeVictim.pos.x - nudgePusher.pos.x) ^ 2
        + (nudgeVictim.pos.y - nudgePusher.pos.y) ^ 2 := by
  have hfree : isWall (21/20) 5 = false := by
    rw [isWall, show ⌊(21/20 : ℚ)⌋ = 1 by norm_num, show ⌊(5 : ℚ)⌋ = 5 by norm_num]
    decide
  have hsolid : isWall (19/20) 5 = true := by
    rw [isWall, show ⌊(19/20 : ℚ)⌋ = 0 by norm_num, show ⌊(5 : ℚ)⌋ = 5 by norm_num]
    decide
  refine ⟨hfree, ?_, hsolid, by norm_num [axisDist, nudgeVictim, nudgePusher],
    by norm_num [axisDist, nudgeVictim, nudgePusher]⟩
  show separationNudge axisDist 1 [nudgePusher]
    ⟨slideX (21/20) 5 0 (if impStats.floats then 0 else 3/10),
     slideY (slideX (21/20) 5 0 (if impStats.floats then 0 else 3/10)) 5 0
       (if impStats.floats then 0 else 3/10)⟩ = ⟨19/20, 5⟩
  have hm : (if impStats.floats then (0 : ℚ) else 3/10) = 3/10 := rfl
  rw [hm]
  have hx1 : slideX (21/20) 5 0 (3/10) = 21/20 := by
    rw [slideX, show (21/20 : ℚ) + 0 + signQ 0 * (3/10) = 21/20 by rw [signQ]; norm_num,
      if_pos hfree]
    norm_num
  rw [hx1]
  have hy1 : slideY (21/20) 5 0 (3/10) = 5 := by
    rw [slideY, show (5 : ℚ) + 0 + signQ 0 * (3/10) = 5 by rw [signQ]; norm_num,
      if_pos hfree]
    norm_num
  rw [hy1]
  rw [separationNudge, List.foldl_cons, List.foldl_nil]
  rw [if_neg (by rw [separationSkip]; decide)]
  have hdist : axisDist ⟨21/20, 5⟩ nudgePusher.pos = 3/4 := by
    rw [axisDist, nudgePusher]
    norm_num
  rw [hdist, if_pos (by norm_num)]
  show (⟨21/20 + (21/20 - nudgePusher.pos.x) / (3/4) * (1/10),
         5 + (5 - nudgePusher.pos.y) / (3/4) * (1/10)⟩ : Vec2) = ⟨19/20, 5⟩
  rw [nudgePusher]
  norm_num

/-- C7 as amended: the margin-probed axis moves themselves do preserve
wall-freeness — a player `moveWithCollision` with per-axis displacements of
at most the 0.2 collision margin, and a non-floating `moveSprite` with
displacements of at most the 0.3 margin when no other sprite is close enough
to exert a separation push, both leave the entity outside solid cells; it is
only the unchecked mutual-separation nudge that can move a sprite into a
solid cell (see the counterexample). -/
theorem entity_wall_free_amended :
    (∀ (p : Player) (dx dy : ℚ), |dx| ≤ 1/5 → |dy| ≤ 1/5 →
      isWall p.pos.x p.pos.y = false →
      isWall (moveWithCollision p dx dy).pos.x
        (moveWithCollision p dx dy).pos.y = false) ∧
    (∀ (distFn : Vec2 → Vec2 → ℚ) (s : Sprite) (dx dy : ℚ) (stats : EnemyStats),
      stats.floats = false → |dx| ≤ 3/10 → |dy| ≤ 3/10 →
      isWall s.pos.x s.pos.y = false →
      isWall (moveSprite distFn s dx dy stats []).pos.x
        (moveSprite distFn s dx dy stats []).pos.y = false) := by
  constructor
  · intro p dx dy hdx hdy hfree
    have h1 : isWall (slideX p.pos.x p.pos.y dx (1/5)) p.pos.y = false :=
      slideX_free _ _ _ _ (by norm_num) (by norm_num) hdx hfree
    have h2 : isWall (slideX p.pos.x p.pos.y dx (1/5))
        (slideY (slideX p.pos.x p.pos.y dx (1/5)) p.pos.y dy (1/5)) = false :=
      slideY_free _ _ _ _ (by norm_num) (by norm_num) hdy h1
    exact h2
  · intro distFn s dx dy stats hfl hdx hdy hfree
    show isWall (separationNudge distFn s.id []
        ⟨slideX s.pos.x s.pos.y dx (if stats.floats then 0 else 3/10),
         slideY (slideX s.pos.x s.pos.y dx (if stats.floats then 0 else 3/10))
           s.pos.y dy (if stats.floats then 0 else 3/10)⟩).x
      (separationNudge distFn s.id []
        ⟨slideX s.pos.x s.pos.y dx (if stats.floats then 0 else 3/10),
         slideY (slideX s.pos.x s.pos.y dx (if stats.floats then 0 else 3/10))
           s.pos.y dy (if stats.floats then 0 else 3/10)⟩).y = false
    rw [hfl]
    rw [show (if (false : Bool) then (0 : ℚ) else 3/10) = 3/10 from rfl]
    rw [separationNudge, List.foldl_nil]
    have h1 : isWall (slideX s.pos.x s.pos.y dx (3/10)) s.pos.y = false :=
      slideX_free _ _ _ _ (by norm_num) (by norm_num) hdx hfree
    exact slideY_free _ _ _ _ (by norm_num) (by norm_num) hdy h1

/-- Witness for C7 (amended): a concrete player step of `(1/5, -1/10)` from
the cell-center `(2.5, 2.5)` stays outside solid cells, and so does a
concrete sprite step with empty surroundings. -/
theorem entity_wall_free_amended_witness :
    isWall (moveWithCollision
      { pos := ⟨5/2, 5/2⟩, dir := ⟨1, 0⟩, plane := ⟨0, 33/50⟩, health := 100,
        armor := 0, isDead := false, damageFlash := 0, screenShake := 0 }
      (1/5) (-1/10)).pos.x
      (moveWithCollision
      { pos := ⟨5/2, 5/2⟩, dir := ⟨1, 0⟩, plane := ⟨0, 33/50⟩, health := 100,
        armor := 0, isDead := false, damageFlash := 0, screenShake := 0 }
      (1/5) (-1/10)).pos.y = false ∧
    isWall (moveSprite axisDist nudgeVictim (1/4) 0 impStats []).pos.x
      (moveSprite axisDist nudgeVictim (1/4) 0 impStats []).pos.y = false := by
  constructor
  · apply entity_wall_free_amended.1 _ _ _ (by rw [abs_le]; norm_num) (by rw [abs_le]; norm_num)
    show isWall (5/2) (5/2) = false
    rw [isWall, show ⌊(5/2 : ℚ)⌋ = 2 by norm_num]
    decide
  · apply entity_wall_free_amended.2 axisDist nudgeVictim _ _ impStats rfl
      (by rw [abs_le]; norm_num) (by rw [abs_le]; norm_num)
    show isWall (21/20) 5 = false
    rw [isWall, show ⌊(21/20 : ℚ)⌋ = 1 by norm_num, show ⌊(5 : ℚ)⌋ = 5 by norm_num]
    decide

/-- The cooldown decrement at the top of `SpriteManager.updateEnemy`
(`if (sprite.attackCooldown > 0) sprite.attackCooldown -= deltaTime`): the
decrement is guarded by positivity, not clamped afterwards. -/
def cooldownTick (cd dt : ℚ) : ℚ :=
  if 0 < cd then cd - dt else cd

/-- Translation of `SpriteManager.updatePain` of `sprites.ts`: decrement the
stun timer held in `attackCooldown` (no clamp) and leave for `chase` once it
is no longer positive. -/
def updatePain (s : Sprite) (dt : ℚ) : Sprite :=
  if s.attackCooldown - dt ≤ 0 then
    { s with attackCooldown := s.attackCooldown - dt, state := SpriteState.chase }
  else
    { s with attackCooldown := s.attackCooldown - dt }

/-- Projectile kinds (`ProjectileType` of the projectile module). -/
inductive ProjectileType
  | fireball | rocket | plasma | lightning | bfgBall
  deriving Repr, DecidableEq

/-- Projectile owner: the player or a sprite id. -/
inductive ProjectileOwner
  | player
  | sprite (id : ℕ)
  deriving Repr, DecidableEq

/-- Projectile state (`Projectile` of the projectile module).  The `char` and
`colour` fields are purely visual and omitted. -/
structure Projectile where
  pos : Vec2
  vel : Vec2
  type : ProjectileType
  damage : ℚ
  radius : ℚ
  owner : ProjectileOwner
  life : ℚ
  deriving Repr, DecidableEq

/-- Squared Euclidean distance.  The source compares `Math.sqrt d2 < 0.5`,
which is exactly equivalent to `d2 < 1/4`; the embedding of the projectile
hit tests uses this squared form. -/
def distSq (a b : Vec2) : ℚ :=
  (a.x - b.x) ^ 2 + (a.y - b.y) ^ 2

/-- The position/lifetime advance at the top of the per-projectile loop body
of `ProjectileManager.update`. -/
def projAdvance (proj : Projectile) (dt : ℚ) : Projectile :=
  { proj with
    pos := ⟨proj.pos.x + proj.vel.x * dt, proj.pos.y + proj.vel.y * dt⟩,
    life := proj.life - dt }

/-- The sprite filter of the enemy-hit check in `ProjectileManager.update`:
dead sprites, health, armor, `ammo_*` pickups, corpses and gibs cannot be
hit. -/
def projectileHittable (s : Sprite) : Bool :=
  decide (s.state ≠ SpriteState.dead) &&
  decide (s.type ≠ SpriteType.health) && decide (s.type ≠ SpriteType.armor) &&
  !isPickupType s.type &&
  decide (s.type ≠ SpriteType.corpse) && decide (s.type ≠ SpriteType.gib)

/-- The removal logic of the per-projectile loop body of
`ProjectileManager.update`: after the advance, a projectile is removed on a
wall hit, on lifetime expiry, on hitting the player (hostile projectiles
within 0.5 units) or on hitting a hittable sprite (player projectiles within
0.5 units); it survives the tick otherwise. -/
def projSurvives (proj : Projectile) (p : Player) (sprites : List Sprite)
    (dt : ℚ) : Bool :=
  let q := projAdvance proj dt
  if isWall q.pos.x q.pos.y = true then false
  else if q.life ≤ 0 then false
  else if proj.owner ≠ ProjectileOwner.player ∧ distSq q.pos p.pos < 1/4 then false
  else if proj.owner = ProjectileOwner.player ∧
      sprites.any (fun s => projectileHittable s && decide (distSq q.pos s.pos < 1/4)) = true
    then false
  else true

/-- Counterexample for C8: the attack cooldown is not clamped at 0 — a
cooldown of 0.1 hit by a tick of `dt = 0.5` in `updateEnemy` is left at
`-0.4`, and the pain timer of `updatePain` likewise goes negative rather than
stopping at 0. -/
theorem counter_clamp_counterexample :
    cooldownTick (1/10) (1/2) = -(2/5) ∧ ((-(2/5) : ℚ) < 0) ∧
    (updatePain nudgeVictim 1).attackCooldown = -1 ∧ ((-1 : ℚ) < 0) := by
  refine ⟨?_, by norm_num, ?_, by norm_num⟩
  · rw [cooldownTick, if_pos (by norm_num)]
    norm_num
  · unfold updatePain
    rw [if_pos (show nudgeVictim.attackCooldown - 1 ≤ 0 by rw [nudgeVictim]; norm_num)]
    show nudgeVictim.attackCooldown - 1 = -1
    rw [nudgeVictim]
    norm_num

/-- C8 as amended: time counters are guarded rather than clamped — a cooldown
that is already non-positive is not decremented further by `updateEnemy`'s
tick (so negative values do not run away), and every projectile that survives
a `ProjectileManager.update` tick has strictly positive remaining lifetime,
because expired projectiles are removed in that very tick (rather than having
their lifetime clamped at 0). -/
theorem counter_clamp_amended :
    (∀ cd dt : ℚ, cd ≤ 0 → cooldownTick cd dt = cd) ∧
    (∀ (proj : Projectile) (p : Player) (sprites : List Sprite) (dt : ℚ),
      projSurvives proj p sprites dt = true → 0 < (projAdvance proj dt).life) := by
  constructor
  · intro cd dt hcd
    rw [cooldownTick, if_neg (not_lt.2 hcd)]
  · intro proj p sprites dt hs
    by_contra hneg
    push_neg at hneg
    unfold projSurvives at hs
    rw [if_neg] at hs
    · rw [if_pos hneg] at hs
      exact Bool.false_ne_true hs
    · intro hwall
      rw [if_pos hwall] at hs
      exact Bool.false_ne_true hs

/-- Witness for C8 (amended): a cooldown already at `-2/5` is left untouched
by the guarded decrement, and a concrete live player rocket in open space
survives a tick with positive remaining lifetime. -/
theorem counter_clamp_amended_witness :
    cooldownTick (-(2/5)) (1/2) = -(2/5) ∧
    0 < (projAdvance
      { pos := ⟨5, 5⟩, vel := ⟨1, 0⟩, type := ProjectileType.rocket,
        damage := 100, radius := 3, owner := ProjectileOwner.player, life := 5 }
      (1/10)).life := by
  constructor
  · exact counter_clamp_amended.1 _ _ (by norm_num)
  · apply counter_clamp_amended.2 _
      { pos := ⟨5/2, 5/2⟩, dir := ⟨1, 0⟩, plane := ⟨0, 33/50⟩, health := 100,
        armor := 0, isDead := false, damageFlash := 0, screenShake := 0 }
      [] (1/10)
    unfold projSurvives projAdvance
    rw [if_neg, if_neg (by norm_num), if_neg (by simp), if_neg (by simp)]
    intro hwall
    have : isWall (5 + 1 * (1/10)) (5 + 0 * (1/10)) = false := by
      rw [isWall, show ⌊(5 + 1 * (1/10 : ℚ))⌋ = 5 by norm_num,
        show ⌊(5 + 0 * (1/10 : ℚ))⌋ = 5 by norm_num]
      decide
    rw [this] at hwall
    exact Bool.false_ne_true hwall

/-- Result of casting a single ray (`RayHit` of `types.ts`); `side` is 0 for
a vertical (N/S) face and 1 for a horizontal (E/W) face. -/
structure RayHit where
  distance : ℚ
  side : ℕ
  wallX : ℚ
  mapX : ℤ
  mapY : ℤ
  deriving Repr, DecidableEq

/-- Mutable state of the DDA loop of `Raycaster.castSingleRay`: current cell,
accumulated side distances, and the axis stepped last. -/
structure DdaState where
  mapX : ℤ
  mapY : ℤ
  sideDistX : ℚ
  sideDistY : ℚ
  side : ℕ
  deriving Repr, DecidableEq

/-- Exit condition of the DDA loop: out of bounds, or a cell with a positive
wall type. -/
def ddaHit (st : DdaState) : Bool :=
  if outOfBounds st.mapX st.mapY then true
  else decide (0 < mapCell st.mapX st.mapY)

/-- One iteration of the DDA loop: advance along the axis with the smaller
accumulated side distance. -/
def ddaStep (stepX stepY : ℤ) (deltaDistX deltaDistY : ℚ) (st : DdaState) : DdaState :=
  if st.sideDistX < st.sideDistY then
    { st with sideDistX := st.sideDistX + deltaDistX, mapX := st.mapX + stepX, side := 0 }
  else
    { st with sideDistY := st.sideDistY + deltaDistY, mapY := st.mapY + stepY, side := 1 }

/-- The `while (!hit)` loop of `Raycaster.castSingleRay`, with explicit fuel;
`ddaLoop_isSome` below proves the fuel of `ddaFuel` is never exhausted from an
in-bounds start, so the fuelled function agrees with the source loop. -/
def ddaLoop (stepX stepY : ℤ) (deltaDistX deltaDistY : ℚ) :
    ℕ → DdaState → Option DdaState
  | 0, _ => none
  | n + 1, st =>
    if ddaHit (ddaStep stepX stepY deltaDistX deltaDistY st) = true then
      some (ddaStep stepX stepY deltaDistX deltaDistY st)
    else ddaLoop stepX stepY deltaDistX deltaDistY n (ddaStep stepX stepY deltaDistX deltaDistY st)

/-- Fuel bound for the DDA loop: more than the `24 + 24` cells a ray can
traverse before leaving the grid. -/
def ddaFuel : ℕ := 50

/-- Translation of `deltaDistX`/`deltaDistY` of `castSingleRay`: `|1/dir|`,
with the `1e30` sentinel for a zero component. -/
def castDelta (rayDir : ℚ) : ℚ :=
  if rayDir = 0 then 10 ^ 30 else |1 / rayDir|

/-- Translation of `stepX`/`stepY` of `castSingleRay`: `-1` for a negative
direction component, `+1` otherwise. -/
def castStepDir (rayDir : ℚ) : ℤ :=
  if rayDir < 0 then -1 else 1

/-- Translation of the initial `sideDistX`/`sideDistY` of `castSingleRay`. -/
def castSideDist (pos rayDir : ℚ) : ℚ :=
  if rayDir < 0 then (pos - ⌊pos⌋) * castDelta rayDir
  else (⌊pos⌋ + 1 - pos) * castDelta rayDir

/-- The epilogue of `castSingleRay`: perpendicular wall distance (clamped at
the `0.01` epsilon), hit side, and texture coordinate `wallX`. -/
def castFinish (posX posY rayDirX rayDirY : ℚ) (st : DdaState) : RayHit :=
  let perp0 := if st.side = 0 then st.sideDistX - castDelta rayDirX
               else st.sideDistY - castDelta rayDirY
  let perpWallDist := if perp0 < 1/100 then 1/100 else perp0
  let wallX0 := if st.side = 0 then posY + perpWallDist * rayDirY
                else posX + perpWallDist * rayDirX
  { distance := perpWallDist, side := st.side, wallX := wallX0 - ⌊wallX0⌋,
    mapX := st.mapX, mapY := st.mapY }

/-- Translation of `Raycaster.castSingleRay` of `raycaster.ts`, assembled from
the pieces above. -/
def castSingleRay (posX posY rayDirX rayDirY : ℚ) : Option RayHit :=
  (ddaLoop (castStepDir rayDirX) (castStepDir rayDirY) (castDelta rayDirX) (castDelta rayDirY)
      ddaFuel
      { mapX := ⌊posX⌋, mapY := ⌊posY⌋, sideDistX := castSideDist posX rayDirX,
        sideDistY := castSideDist posY rayDirY, side := 0 }).map
    (castFinish posX posY rayDirX rayDirY)

/-- Helper: one-step unfolding of the DDA loop. -/
theorem ddaLoop_succ (a b : ℤ) (dX dY : ℚ) (n : ℕ) (st : DdaState) :
    ddaLoop a b dX dY (n + 1) st =
      if ddaHit (ddaStep a b dX dY st) = true then some (ddaStep a b dX dY st)
      else ddaLoop a b dX dY n (ddaStep a b dX dY st) := rfl

/-- Helper: how many loop iterations remain before the stepped coordinate
leaves the grid. -/
def ddaBudget (map step : ℤ) : ℤ :=
  if 0 < step then 24 - map else map + 1

/-- Helper: stepping a coordinate consumes one unit of its budget. -/
theorem ddaBudget_step (map step : ℤ) (hs : step = 1 ∨ step = -1) :
    ddaBudget (map + step) step = ddaBudget map step - 1 := by
  rcases hs with h | h <;> subst h <;> simp [ddaBudget] <;> ring

/-- Helper: each DDA iteration consumes exactly one unit of the total
budget. -/
theorem ddaStep_budget (a b : ℤ) (dX dY : ℚ) (st : DdaState)
    (ha : a = 1 ∨ a = -1) (hb : b = 1 ∨ b = -1) :
    ddaBudget (ddaStep a b dX dY st).mapX a + ddaBudget (ddaStep a b dX dY st).mapY b
      = ddaBudget st.mapX a + ddaBudget st.mapY b - 1 := by
  rw [ddaStep]
  split_ifs with h
  · show ddaBudget (st.mapX + a) a + ddaBudget st.mapY b = _
    rw [ddaBudget_step _ _ ha]
    ring
  · show ddaBudget st.mapX a + ddaBudget (st.mapY + b) b = _
    rw [ddaBudget_step _ _ hb]
    ring

/-- Helper: from any in-bounds cell, the DDA loop produces a hit before
exhausting any fuel exceeding the remaining budget. -/
theorem ddaLoop_isSome (a b : ℤ) (dX dY : ℚ)
    (ha : a = 1 ∨ a = -1) (hb : b = 1 ∨ b = -1) :
    ∀ (n : ℕ) (st : DdaState),
      0 ≤ st.mapX → st.mapX < 24 → 0 ≤ st.mapY → st.mapY < 24 →
      ddaBudget st.mapX a + ddaBudget st.mapY b < (n : ℤ) →
      (ddaLoop a b dX dY n st).isSome = true := by
  intro n
  induction n with
  | zero =>
    intro st h1 h2 h3 h4 h5
    exfalso
    have bx : 1 ≤ ddaBudget st.mapX a := by
      rcases ha with h | h <;> subst h <;> simp [ddaBudget] <;> omega
    have hy : 1 ≤ ddaBudget st.mapY b := by
      rcases hb with h | h <;> subst h <;> simp [ddaBudget] <;> omega
    simp only [Nat.cast_zero] at h5
    omega
  | succ n ih =>
    intro st h1 h2 h3 h4 h5
    rw [ddaLoop_succ]
    by_cases hh : ddaHit (ddaStep a b dX dY st) = true
    · rw [if_pos hh]
      rfl
    · rw [if_neg hh]
      have hnotoob : ¬ outOfBounds (ddaStep a b dX dY st).mapX (ddaStep a b dX dY st).mapY := by
        intro hoob
        exact hh (by rw [ddaHit, if_pos hoob])
      rw [outOfBounds, MAP_WIDTH, MAP_HEIGHT] at hnotoob
      push_neg at hnotoob
      obtain ⟨o1, o2, o3, o4⟩ := hnotoob
      have hbud := ddaStep_budget a b dX dY st ha hb
      apply ih
      · exact o1
      · exact o2
      · exact o3
      · exact o4
      · rw [hbud]
        push_cast [Nat.cast_succ] at h5 ⊢
        omega

/-- C5 as amended: from every origin strictly inside the grid and for every
ray direction — including the zero vector — the DDA loop of `castSingleRay`
terminates with a hit (the fuel of 50, more than the `24 + 24 + 2` budget of
any interior start, is never exhausted), so `castSingleRay` returns a result;
the returned distance is a finite rational, but it is *not* in general
bounded by the grid diagonal plus one (see the counterexample). -/
theorem cast_ray_terminates (posX posY rayDirX rayDirY : ℚ)
    (hx0 : 0 < posX) (hx1 : posX < 24) (hy0 : 0 < posY) (hy1 : posY < 24) :
    (castSingleRay posX posY rayDirX rayDirY).isSome = true := by
  have hstep : ∀ r : ℚ, castStepDir r = 1 ∨ castStepDir r = -1 := by
    intro r
    rw [castStepDir]
    split_ifs
    · right; rfl
    · left; rfl
  have hx0f : (0 : ℤ) ≤ ⌊posX⌋ := Int.le_floor.2 (by exact_mod_cast hx0.le)
  have hx1f : ⌊posX⌋ < 24 := Int.floor_lt.2 (by exact_mod_cast hx1)
  have hy0f : (0 : ℤ) ≤ ⌊posY⌋ := Int.le_floor.2 (by exact_mod_cast hy0.le)
  have hy1f : ⌊posY⌋ < 24 := Int.floor_lt.2 (by exact_mod_cast hy1)
  have hloop := ddaLoop_isSome (castStepDir rayDirX) (castStepDir rayDirY)
    (castDelta rayDirX) (castDelta rayDirY) (hstep rayDirX) (hstep rayDirY) ddaFuel
    { mapX := ⌊posX⌋, mapY := ⌊posY⌋, sideDistX := castSideDist posX rayDirX,
      sideDistY := castSideDist posY rayDirY, side := 0 }
    hx0f hx1f hy0f hy1f
    (by
      have b1 : ddaBudget ⌊posX⌋ (castStepDir rayDirX) ≤ 24 := by
        rcases hstep rayDirX with h | h <;> rw [h] <;> simp [ddaBudget] <;> omega
      have b2 : ddaBudget ⌊posY⌋ (castStepDir rayDirY) ≤ 24 := by
        rcases hstep rayDirY with h | h <;> rw [h] <;> simp [ddaBudget] <;> omega
      rw [show (ddaFuel : ℤ) = 50 from rfl]
      show ddaBudget ⌊posX⌋ (castStepDir rayDirX) + ddaBudget ⌊posY⌋ (castStepDir rayDirY) < 50
      omega)
  rw [castSingleRay]
  obtain ⟨st, hst⟩ := Option.isSome_iff_exists.1 hloop
  rw [hst]
  rfl

/-- Witness for C5 (amended): the cast from the grid center with the zero
direction vector does return a result. -/
theorem cast_ray_terminates_witness :
    (castSingleRay (25/2) (25/2) 0 0).isSome = true :=
  cast_ray_terminates (25/2) (25/2) 0 0 (by norm_num) (by norm_num)
    (by norm_num) (by norm_num)

/-- Counterexample for C5: cast from the grid center `(12.5, 12.5)` with the
zero direction vector, the `1e30` sentinel side distances make the returned
perpendicular distance `5 * 10^29`, which vastly exceeds the grid diagonal
plus one (`√(24² + 24²) + 1 < 34 + 1 ≤ 35`, certified by the last two
conjuncts). -/
theorem cast_ray_distance_counterexample :
    (castSingleRay (25/2) (25/2) 0 0).map RayHit.distance = some (5 * 10 ^ 29) ∧
    (35 : ℚ) < 5 * 10 ^ 29 ∧ (24 ^ 2 + 24 ^ 2 : ℚ) < 34 ^ 2 := by
  refine ⟨?_, by norm_num, by norm_num⟩
  have hfloor : ⌊(25/2 : ℚ)⌋ = 12 := by norm_num
  have h1 : castDelta (0 : ℚ) = 10 ^ 30 := by rw [castDelta, if_pos rfl]
  have h2 : castStepDir (0 : ℚ) = 1 := by rw [castStepDir, if_neg (by norm_num)]
  have h3 : castSideDist (25/2) 0 = 5 * 10 ^ 29 := by
    rw [castSideDist, if_neg (by norm_num), h1, hfloor]
    norm_num
  have hstep1 : ddaStep 1 1 (10 ^ 30) (10 ^ 30) ⟨12, 12, 5 * 10 ^ 29, 5 * 10 ^ 29, 0⟩
      = ⟨12, 13, 5 * 10 ^ 29, 15 * 10 ^ 29, 1⟩ := by
    rw [ddaStep, if_neg (by norm_num)]
    show DdaState.mk 12 (12 + 1) (5 * 10 ^ 29) (5 * 10 ^ 29 + 10 ^ 30) 1 = _
    norm_num
  have hstep2 : ddaStep 1 1 (10 ^ 30) (10 ^ 30) ⟨12, 13, 5 * 10 ^ 29, 15 * 10 ^ 29, 1⟩
      = ⟨13, 13, 15 * 10 ^ 29, 15 * 10 ^ 29, 0⟩ := by
    rw [ddaStep, if_pos (by norm_num)]
    show DdaState.mk (12 + 1) 13 (5 * 10 ^ 29 + 10 ^ 30) (15 * 10 ^ 29) 0 = _
    norm_num
  have hloop : ddaLoop 1 1 (10 ^ 30) (10 ^ 30) ddaFuel ⟨12, 12, 5 * 10 ^ 29, 5 * 10 ^ 29, 0⟩
      = some ⟨13, 13, 15 * 10 ^ 29, 15 * 10 ^ 29, 0⟩ := by
    rw [show ddaFuel = 49 + 1 from rfl, ddaLoop_succ, hstep1,
      if_neg (by rw [ddaHit]; decide),
      show (49 : ℕ) = 48 + 1 from rfl, ddaLoop_succ, hstep2,
      if_pos (by rw [ddaHit]; decide)]
  rw [castSingleRay, h1, h2, h3, hfloor, hloop]
  have h4 : (castFinish (25/2) (25/2) 0 0 ⟨13, 13, 15 * 10 ^ 29, 15 * 10 ^ 29, 0⟩).distance
      = 5 * 10 ^ 29 := by
    show (if (if (0 : ℕ) = 0 then (15 * 10 ^ 29 - castDelta 0 : ℚ)
              else 15 * 10 ^ 29 - castDelta 0) < 1/100
          then (1/100 : ℚ)
          else (if (0 : ℕ) = 0 then (15 * 10 ^ 29 - castDelta 0 : ℚ)
                else 15 * 10 ^ 29 - castDelta 0)) = 5 * 10 ^ 29
    rw [if_pos rfl, h1, if_neg (by norm_num)]
    norm_num
  rw [Option.map_map]
  show some ((castFinish (25/2) (25/2) 0 0 ⟨13, 13, 15 * 10 ^ 29, 15 * 10 ^ 29, 0⟩).distance) = _
  rw [h4]

/-- Per-column camera interpolation of `Raycaster.castRays`:
`cameraX = 2x / screenWidth - 1`. -/
def cameraX (x screenWidth : ℕ) : ℚ :=
  2 * x / screenWidth - 1

/-- Translation of `Raycaster.castRays` of `raycaster.ts`: one ray per screen
column `x`, with direction `dir + plane * cameraX`. -/
def castRays (p : Player) (screenWidth : ℕ) : List (Option RayHit) :=
  (List.range screenWidth).map fun x =>
    castSingleRay p.pos.x p.pos.y
      (p.dir.x + p.plane.x * cameraX x screenWidth)
      (p.dir.y + p.plane.y * cameraX x screenWidth)

/-- Counterexample for C9: with 4 columns, the rightmost column `x = 3` has
`cameraX = 2*3/4 - 1 = 1/2`, not the `+1` the claim states for the rightmost
column. -/
theorem cast_fan_counterexample :
    cameraX 3 4 = 1/2 ∧ (1/2 : ℚ) ≠ 1 := by
  constructor
  · rw [cameraX]
    norm_num
  · norm_num

/-- C9 as amended: `castRays` produces exactly one ray result per screen
column; column `x` of `w` uses direction `dir + plane * cameraX` with
`cameraX = 2x/w - 1`, which is `-1` at the leftmost column and increases by
`2/w` per column up to `1 - 2/w` at the rightmost column (approaching but
never reaching `+1`). -/
theorem cast_fan_amended (p : Player) (w : ℕ) (hw : 0 < w) :
    (castRays p w).length = w ∧
    (∀ x, x < w →
      (castRays p w)[x]? = some (castSingleRay p.pos.x p.pos.y
        (p.dir.x + p.plane.x * cameraX x w)
        (p.dir.y + p.plane.y * cameraX x w))) ∧
    cameraX 0 w = -1 ∧
    cameraX (w - 1) w = 1 - 2 / w := by
  have hw0 : ((w : ℚ)) ≠ 0 := Nat.cast_ne_zero.2 hw.ne'
  refine ⟨by simp [castRays], ?_, ?_, ?_⟩
  · intro x hx
    simp [castRays, List.getElem?_map, List.getElem?_range hx]
  · rw [cameraX]
    simp
  · rw [cameraX]
    rw [Nat.cast_sub hw]
    field_simp
    ring

/-- Witness for C9 (amended): with 4 columns, the fan from a concrete
viewpoint has exactly 4 entries, the leftmost column has `cameraX = -1` and
the rightmost `cameraX = 1 - 2/4`. -/
theorem cast_fan_amended_witness :
    (castRays
      { pos := ⟨5/2, 5/2⟩, dir := ⟨1, 0⟩, plane := ⟨0, 33/50⟩, health := 100,
        armor := 0, isDead := false, damageFlash := 0, screenShake := 0 }
      4).length = 4 ∧
    cameraX 0 4 = -1 ∧ cameraX (4 - 1) 4 = 1 - 2 / 4 := by
  have h := cast_fan_amended
    { pos := ⟨5/2, 5/2⟩, dir := ⟨1, 0⟩, plane := ⟨0, 33/50⟩, health := 100,
      armor := 0, isDead := false, damageFlash := 0, screenShake := 0 }
    4 (by norm_num)
  exact ⟨h.1, h.2.2.1, by exact_mod_cast h.2.2.2⟩

/-- Ammo kinds of the weapon layer (`weapon.ts`). -/
inductive AmmoType
  | noAmmo | bullets | shells | rockets | cells | fuel
  deriving Repr, DecidableEq

/-- Weapon statistics (`WeaponStats` of `weapon.ts`); fields not consumed by
the embedded hit resolution are kept for fidelity of the data model. -/
structure WeaponStats where
  damage : ℚ
  cooldown : ℚ
  ammoType : AmmoType
  ammoPerShot : ℚ
  pellets : Option ℕ := none
  splash : Option ℚ := none
  screenShake : Option ℚ := none
  range : Option ℚ := none
  continuous : Bool := false
  muzzleFlash : Option ℚ := none
  deriving Repr, DecidableEq

/-- The `rocket` entry of `WEAPON_STATS` (`weapon.ts`): damage 100, splash
radius 3. -/
def rocketWeapon : WeaponStats :=
  { damage := 100, cooldown := 6/5, ammoType := AmmoType.rockets, ammoPerShot := 1,
    splash := some 3, screenShake := some (1/2), muzzleFlash := some 1 }

/-- The `bfg` entry of `WEAPON_STATS` (`weapon.ts`): damage 400, splash
radius 5. -/
def bfgWeapon : WeaponStats :=
  { damage := 400, cooldown := 3, ammoType := AmmoType.cells, ammoPerShot := 40,
    splash := some 5, screenShake := some 1, muzzleFlash := some 1 }

/-- Player damage of the enemy-projectile branch of
`ProjectileManager.handleExplosion`:
`Math.floor(proj.damage * falloff * 0.5)`. -/
def explosionPlayerDamage (damage dist radius : ℚ) : ℤ :=
  ⌊damage * (1 - dist / radius) * (1/2)⌋

/-- The player mutation of the enemy-projectile branch of `handleExplosion`:
clamp health at 0, set `damageFlash = 0.5`, mark dead at 0 health. -/
def explosionHitPlayer (p : Player) (dmg : ℤ) : Player :=
  { p with health := max 0 (p.health - (dmg : ℚ)), damageFlash := 1/2,
           isDead := decide (max 0 (p.health - (dmg : ℚ)) ≤ 0) }

/-- The rocket/BFG screen shake applied at the end of `handleExplosion`. -/
def explosionShake (t : ProjectileType) (p : Player) : Player :=
  if t = ProjectileType.rocket then { p with screenShake := max p.screenShake (3/10) }
  else if t = ProjectileType.bfgBall then { p with screenShake := max p.screenShake (4/5) }
  else p

/-- Translation of `ProjectileManager.handleExplosion` of the projectile
module: a player projectile with positive splash radius damages enemies
through `applySplashDamage` with base damage `proj.damage * 0.5`; an enemy
projectile damages the player with the floored half-falloff formula; rockets
and BFG balls shake the screen.  (Gore spawning is external and omitted.) -/
def handleExplosion (distFn : Vec2 → Vec2 → ℚ) (proj : Projectile) (p : Player)
    (sprites : List Sprite) : Player × List Sprite :=
  let inner : Player × List Sprite :=
    if 0 < proj.radius then
      match proj.owner with
      | ProjectileOwner.player =>
        (p, applySplashDamage distFn proj.pos proj.radius (proj.damage * (1/2)) sprites)
      | ProjectileOwner.sprite _ =>
        if distFn proj.pos p.pos < proj.radius ∧
            0 < explosionPlayerDamage proj.damage (distFn proj.pos p.pos) proj.radius ∧
            p.isDead = false then
          (explosionHitPlayer p
            (explosionPlayerDamage proj.damage (distFn proj.pos p.pos) proj.radius),
           sprites)
        else (p, sprites)
    else (p, sprites)
  (explosionShake proj.type inner.1, inner.2)

/-- The rocket/BFG screen shake applied at the end of `handleEnemyHit` (the
values differ from the explosion ones: 0.4 and 1.0). -/
def enemyHitShake (t : ProjectileType) (p : Player) : Player :=
  if t = ProjectileType.rocket then { p with screenShake := max p.screenShake (2/5) }
  else if t = ProjectileType.bfgBall then { p with screenShake := max p.screenShake 1 }
  else p

/-- Translation of `ProjectileManager.handleEnemyHit` of the projectile
module: the struck sprite takes the projectile's full damage through
`damageSprite`; a positive splash radius then triggers `applySplashDamage`
with base damage `proj.damage * 0.5`; rockets and BFG balls shake the
screen.  (Gore spawning is external and omitted.) -/
def handleEnemyHit (distFn : Vec2 → Vec2 → ℚ) (proj : Projectile) (hit : Sprite)
    (p : Player) (sprites : List Sprite) : Player × List Sprite :=
  let sprites1 := sprites.map fun s =>
    if s.id = hit.id then (damageSprite hit proj.damage).sprite else s
  let sprites2 :=
    if 0 < proj.radius then
      applySplashDamage distFn proj.pos proj.radius (proj.damage * (1/2)) sprites1
    else sprites1
  (enemyHitShake proj.type p, sprites2)

/-- Translation of the single-shot hit resolution of `updateWeapon`
(`weapon.ts`): the crosshair sprite takes the weapon's full damage through
`damageSprite`, and a splash-capable weapon then triggers `applySplashDamage`
at the struck sprite's position with base damage `stats.damage * 0.5`. -/
def resolveSingleShotHit (distFn : Vec2 → Vec2 → ℚ) (stats : WeaponStats)
    (hit : Sprite) (sprites : List Sprite) : List Sprite :=
  let sprites1 := sprites.map fun s =>
    if s.id = hit.id then (damageSprite hit stats.damage).sprite else s
  match stats.splash with
  | some radius => applySplashDamage distFn hit.pos radius (stats.damage * (1/2)) sprites1
  | none => sprites1

/-- C10: every splash invocation — wall explosion of a player projectile,
direct enemy hit by a player projectile, and splash-capable player weapon —
passes half the direct damage (`damage * 0.5`) as the base damage of
`applySplashDamage`; consequently a live hostile at computed distance `d`
with `0.1 < d < R` from the impact of a projectile carrying damage `D`
receives `⌊(D * 0.5) * (1 - d/R)⌋` damage (skipped when not positive).  The
two splash-capable weapons are the rocket (damage 100, radius 3) and the BFG
(damage 400, radius 5). -/
theorem splash_half_damage_contract (distFn : Vec2 → Vec2 → ℚ)
    (proj : Projectile) (hit : Sprite) (p : Player) (sprites : List Sprite)
    (stats : WeaponStats) (radius : ℚ)
    (hr : 0 < proj.radius) (ho : proj.owner = ProjectileOwner.player)
    (hsplash : stats.splash = some radius) :
    (handleExplosion distFn proj p sprites).2
      = applySplashDamage distFn proj.pos proj.radius (proj.damage * (1/2)) sprites ∧
    (handleEnemyHit distFn proj hit p sprites).2
      = applySplashDamage distFn proj.pos proj.radius (proj.damage * (1/2))
          (sprites.map fun s =>
            if s.id = hit.id then (damageSprite hit proj.damage).sprite else s) ∧
    resolveSingleShotHit distFn stats hit sprites
      = applySplashDamage distFn hit.pos radius (stats.damage * (1/2))
          (sprites.map fun s =>
            if s.id = hit.id then (damageSprite hit stats.damage).sprite else s) ∧
    rocketWeapon.splash = some 3 ∧ bfgWeapon.splash = some 5 ∧
    (∀ d R D : ℚ, 1/10 < d → d < R →
      splashHit d R (D * (1/2)) =
        if 0 < ⌊D * (1/2) * (1 - d / R)⌋ then some ⌊D * (1/2) * (1 - d / R)⌋
        else none) := by
  obtain ⟨ppos, pvel, ptype, pdamage, pradius, powner, plife⟩ := proj
  simp only at hr ho
  subst ho
  refine ⟨?_, ?_, ?_, rfl, rfl, ?_⟩
  · unfold handleExplosion
    dsimp only
    rw [if_pos hr]
  · unfold handleEnemyHit
    dsimp only
    rw [if_pos hr]
  · unfold resolveSingleShotHit
    rw [hsplash]
  · intro d R D h1 h2
    rw [splashHit, if_pos ⟨h2, h1⟩]

/-- Witness for C10: a concrete player rocket (damage 100, splash radius 3)
exploding on a wall at `(5, 5)` hands `applySplashDamage` exactly
`100 * 0.5 = 50` base damage. -/
theorem splash_half_damage_contract_witness :
    (handleExplosion axisDist
      { pos := ⟨5, 5⟩, vel := ⟨1, 0⟩, type := ProjectileType.rocket,
        damage := 100, radius := 3, owner := ProjectileOwner.player, life := 5 }
      { pos := ⟨5/2, 5/2⟩, dir := ⟨1, 0⟩, plane := ⟨0, 33/50⟩, health := 100,
        armor := 0, isDead := false, damageFlash := 0, screenShake := 0 }
      []).2
      = applySplashDamage axisDist ⟨5, 5⟩ 3 (100 * (1/2)) [] := by
  exact (splash_half_damage_contract axisDist
    { pos := ⟨5, 5⟩, vel := ⟨1, 0⟩, type := ProjectileType.rocket,
      damage := 100, radius := 3, owner := ProjectileOwner.player, life := 5 }
    nudgeVictim
    { pos := ⟨5/2, 5/2⟩, dir := ⟨1, 0⟩, plane := ⟨0, 33/50⟩, health := 100,
      armor := 0, isDead := false, damageFlash := 0, screenShake := 0 }
    [] rocketWeapon 3 (by norm_num) rfl rfl).1

end TextDoom
